import Mathlib

/-! Verification of `server.js` (authors/books read API over a document store).

A shallow embedding of `src/server.js`: the two mongoose models, the store
operations the file calls (`deleteMany`, `save`, `find`, `findById`,
`populate`), the seeding routine, the middleware chain and the five route
handlers.  Store operations are state-passing computations over the
persisted collections, so that the effect of a handler on the store is a
statement about the final state and not a consequence of a type.
-/

namespace MongoCodealong

/-! ## Data model (server.js lines 10-22) -/

/-- Identity of a document (`mongoose.Schema.Types.ObjectId`).  Only equality
of identities is ever used by the program, so the 12-byte value is kept as a
natural number. -/
abbrev ObjectId := Nat

/-- Document of the `Author` model (line 10): `{ name: String }` plus the
identity `_id` every document carries. -/
structure Author where
  _id : ObjectId
  name : String
deriving DecidableEq, Repr

/-- Content of an optional path of a document: the path is unset (the document
has no such member, and neither has its JSON form), or it holds null, or it
holds a value. -/
inductive Path (α : Type) where
  | unset
  | null
  | value (a : α)
deriving DecidableEq, Repr

/-- Apply a function to the value a path holds, if it holds one. -/
def Path.map {α β : Type} (f : α → β) : Path α → Path β
  | Path.unset => Path.unset
  | Path.null => Path.null
  | Path.value a => Path.value (f a)

/-- Document of the `Book` model (line 14): `title` and an `author` path of
type ObjectId referring to `Author`. -/
structure Book where
  _id : ObjectId
  title : String
  author : Path ObjectId
deriving DecidableEq, Repr

/-- A `Book` after `.populate("author")`: the `author` path holds the referenced
document in place of its identity. -/
structure PopulatedBook where
  _id : ObjectId
  title : String
  author : Path Author
deriving DecidableEq, Repr

/-- The persisted state: the two collections, in natural (insertion) order. -/
structure Store where
  authors : List Author
  books : List Book
deriving DecidableEq, Repr

/-- Failures of a store operation that reject the awaited promise. -/
inductive StoreError where
  /-- A string that cannot be cast to an ObjectId was used as an id. -/
  | castError (raw : String)
  /-- An insert met a document with the same `_id` (E11000). -/
  | duplicateKey (id : ObjectId)
deriving DecidableEq, Repr

/-- Store computations: an awaited operation either yields a value or rejects,
and in both cases leaves a store state behind. -/
abbrev StoreM := ExceptT StoreError (StateM Store)

/-- Run a store computation from a given store state. -/
def StoreM.exec {α : Type} (m : StoreM α) (s : Store) : Except StoreError α × Store :=
  (ExceptT.run m).run s

/-! ## Store operations used by server.js -/

/-- The call `Author.deleteMany()` (line 31): removes every Author document. -/
def Author.deleteMany : StoreM Unit :=
  modify fun s => { s with authors := [] }

/-- The call `Book.deleteMany()` (line 32): removes every Book document. -/
def Book.deleteMany : StoreM Unit :=
  modify fun s => { s with books := [] }

/-- The call `author.save()` of a new document (lines 35, 38): inserts it, and rejects
when the collection already holds a document with that `_id`. -/
def Author.save (a : Author) : StoreM Unit := do
  let s ← get
  if s.authors.any (fun x => x._id == a._id) then
    throw (StoreError.duplicateKey a._id)
  else
    set { s with authors := s.authors ++ [a] }

/-- The call `book.save()` of a new document (lines 40-69). -/
def Book.save (b : Book) : StoreM Unit := do
  let s ← get
  if s.books.any (fun x => x._id == b._id) then
    throw (StoreError.duplicateKey b._id)
  else
    set { s with books := s.books ++ [b] }

/-- The call `Author.find()` (line 102): every Author document. -/
def Author.find : StoreM (List Author) := do
  let s ← get
  pure s.authors

/-- The driver's cast of a route parameter to an ObjectId; `none` is a cast
failure.  The cast belongs to the driver, so the handlers take it as a
parameter. -/
abbrev IdCast := String → Option ObjectId

/-- The call `Author.findById(raw)` (lines 108, 118): casts the string to an ObjectId
(rejecting with a cast error when that fails) and yields the Author with that
identity, or null. -/
def Author.findById (cast : IdCast) (raw : String) : StoreM (Option Author) := do
  match cast raw with
  | none => throw (StoreError.castError raw)
  | some oid =>
    let s ← get
    pure (s.authors.find? (fun a => a._id == oid))

/-- The call `Book.find({ author: oid })` (line 120): the Book documents whose `author`
path equals the given ObjectId. -/
def Book.findByAuthor (oid : ObjectId) : StoreM (List Book) := do
  let s ← get
  pure (s.books.filter (fun b => b.author == Path.value oid))

/-- Resolution of one book's `author` path by `populate`: an identity is
replaced by the Author that has it, and by null when no Author has it; a path
that is unset stays unset and a null stays null. -/
def populateAuthor (authors : List Author) (b : Book) : PopulatedBook :=
  { _id := b._id
    title := b.title
    author :=
      match b.author with
      | Path.unset => Path.unset
      | Path.null => Path.null
      | Path.value oid =>
        match authors.find? (fun a => a._id == oid) with
        | some a => Path.value a
        | none => Path.null }

/-- The call `Book.find().populate("author")` (line 132). -/
def Book.findPopulated : StoreM (List PopulatedBook) := do
  let s ← get
  pure (s.books.map (populateAuthor s.authors))

/-! ## Requests, responses and middleware -/

/-- What a handler sends as the response payload. -/
inductive Body where
  /-- The call `res.send(text)`. -/
  | text (s : String)
  /-- The call `res.json({ error: msg })`. -/
  | error (msg : String)
  /-- The call `res.json(author)`. -/
  | author (a : Author)
  /-- The call `res.json(authors)`. -/
  | authors (l : List Author)
  /-- The call `res.json(books)`, the `author` path being the stored ObjectId. -/
  | books (l : List Book)
  /-- The call `res.json(books)` of populated books. -/
  | populatedBooks (l : List PopulatedBook)
  /-- The call `res.end()`: no payload. -/
  | empty
  /-- A payload generated by the framework itself (unmatched route, default
  error handler). -/
  | frameworkDefault
deriving DecidableEq, Repr

/-- The response object: its status code (200 until changed) and the payload
handed to `res.json`, `res.send` or `res.end`, `none` while the response has
not been ended.  Headers are not modelled, nor is the transfer itself: for a
HEAD request the framework ends the response with the status and the headers
and leaves the payload out. -/
structure Res where
  statusCode : Nat
  body : Option Body
deriving DecidableEq, Repr

/-- The response object a request starts with. -/
def Res.fresh : Res := { statusCode := 200, body := none }

/-- The call `res.status(code)`. -/
def Res.status (res : Res) (code : Nat) : Res := { res with statusCode := code }

/-- The call `res.json(payload)`: end the response with the payload. -/
def Res.json (res : Res) (b : Body) : Res := { res with body := some b }

/-- The call `res.send(payload)`: end the response with the payload. -/
def Res.send (res : Res) (b : Body) : Res := { res with body := some b }

/-- An incoming request: method, path segments (the path split at its slashes,
the leading slash and one trailing slash left out, so `/authors/5/books` and
`/authors/5/books/` are `["authors", "5", "books"]`), headers and raw payload. -/
structure Request where
  method : String
  path : List String
  headers : List (String × String)
  body : String
deriving DecidableEq, Repr

/-- The error object a middleware hands to `next(err)`; the default error
handler answers with its status. -/
structure HttpError where
  status : Nat
deriving DecidableEq, Repr

/-- Effect of one middleware invocation: the request and response objects it
leaves, and the calls of `next` it made, each with its argument (`none` for
`next()`, `some err` for `next(err)`). -/
structure MwOut where
  req : Request
  res : Res
  nexts : List (Option HttpError)
deriving DecidableEq, Repr

/-- A synchronous middleware `(req, res, next) => ...`. -/
abbrev Middleware := Request → Res → MwOut

/-- The middleware `cors()` of the cors package with its default options (line 83):
a preflight request (method OPTIONS) gets the CORS headers and is answered at
once with status 204 and no payload, `next` not being called (the options
`preflightContinue: false` and `optionsSuccessStatus: 204` are the defaults);
every other request only gets headers and goes on to `next()`.  The package
compares the upper-cased method; the server delivers `req.method` in upper
case. -/
def cors : Middleware := fun req res =>
  if req.method = "OPTIONS" then
    { req := req, res := { statusCode := 204, body := some Body.empty }, nexts := [] }
  else
    { req := req, res := res, nexts := [none] }

/-- The availability gate (lines 87-93), reading `mongoose.connection.readyState`. -/
def availabilityGate (readyState : Nat) : Middleware := fun req res =>
  if readyState = 1 then
    { req := req, res := res, nexts := [none] }
  else
    { req := req, res := (res.status 503).json (Body.error "Service unavailable"), nexts := [] }

/-- Where a chain of `app.use` middlewares leaves a request. -/
inductive ChainResult where
  /-- Every middleware called `next()`: the routes come next. -/
  | passed (req : Request) (res : Res)
  /-- A middleware did not call `next`: the response is as it left it. -/
  | ended (res : Res)
  /-- A middleware called `next(err)`: the remaining middlewares and the routes
  are skipped and the error handler answers. -/
  | failed (err : HttpError) (res : Res)
deriving DecidableEq, Repr

/-- The framework's dispatch over the `app.use` stack, in registration order. -/
def runChain : List Middleware → Request → Res → ChainResult
  | [], req, res => ChainResult.passed req res
  | m :: rest, req, res =>
    match (m req res).nexts with
    | [] => ChainResult.ended (m req res).res
    | some err :: _ => ChainResult.failed err (m req res).res
    | none :: _ => runChain rest (m req res).req (m req res).res

/-! ## Route handlers (server.js lines 96-134) -/

/-- Handler of `GET /` (line 96). -/
def getRoot (res : Res) : StoreM Res :=
  pure (res.send (Body.text "Hello Technigo!"))

/-- Handler of `GET /authors` (line 101). -/
def getAuthors (res : Res) : StoreM Res := do
  let authors ← Author.find
  pure (res.json (Body.authors authors))

/-- Handler of `GET /authors/:id` (line 107). -/
def getAuthorById (cast : IdCast) (id : String) (res : Res) : StoreM Res := do
  let author ← Author.findById cast id
  match author with
  | some a => pure (res.json (Body.author a))
  | none => pure ((res.status 404).json (Body.error "Author not found"))

/-- Handler of `GET /authors/:id/books` (line 117).  `author.id` is the hex string of
`author._id` and `ObjectId.createFromHexString` reads it back, so the filter
value is `author._id`. -/
def getAuthorBooks (cast : IdCast) (id : String) (res : Res) : StoreM Res := do
  let author ← Author.findById cast id
  match author with
  | some a =>
    let books ← Book.findByAuthor a._id
    pure (res.json (Body.books books))
  | none => pure ((res.status 404).json (Body.error "Author not found"))

/-- Handler of `GET /books` (line 130). -/
def getBooks (res : Res) : StoreM Res := do
  let books ← Book.findPopulated
  pure (res.json (Body.populatedBooks books))

/-- The five routes of the application. -/
inductive Route where
  | root
  | authors
  | authorById (id : String)
  | authorBooks (id : String)
  | books
deriving DecidableEq, Repr

/-- The handler registered for a route. -/
def Route.handler (cast : IdCast) : Route → Res → StoreM Res
  | Route.root => getRoot
  | Route.authors => getAuthors
  | Route.authorById id => getAuthorById cast id
  | Route.authorBooks id => getAuthorBooks cast id
  | Route.books => getBooks

/-- Route matching, in registration order.  All five routes are `app.get`
routes, which serve GET and HEAD; the fixed words of a route are matched
without regard to case and a parameter is a non-empty segment. -/
def matchRoute (req : Request) : Option Route :=
  if req.method = "GET" ∨ req.method = "HEAD" then
    match req.path with
    | [] => some Route.root
    | [a] =>
      if a.toLower = "authors" then some Route.authors
      else if a.toLower = "books" then some Route.books
      else none
    | [a, id] =>
      if a.toLower = "authors" ∧ id ≠ "" then some (Route.authorById id) else none
    | [a, id, b] =>
      if a.toLower = "authors" ∧ id ≠ "" ∧ b.toLower = "books" then
        some (Route.authorBooks id)
      else none
    | _ => none
  else none

/-- What the application did with a request: the response, and the route
handler that ran, if one did. -/
structure Outcome where
  res : Res
  handler : Option Route
deriving DecidableEq, Repr

/-- The application (lines 80-134): the three `app.use` middlewares in order
(cors, the JSON body parser, the availability gate) and then the routes.  The
body parser `express.json()` is library code and is a parameter.  A request no
route matches, and an error passed to `next`, get the framework's default
answer (404, and the error's status). -/
def app (jsonParser : Middleware) (cast : IdCast) (readyState : Nat) (req : Request) :
    StoreM Outcome :=
  match runChain [cors, jsonParser, availabilityGate readyState] req Res.fresh with
  | ChainResult.ended res => pure { res := res, handler := none }
  | ChainResult.failed err res =>
    pure { res := (res.status err.status).json Body.frameworkDefault, handler := none }
  | ChainResult.passed req1 res =>
    match matchRoute req1 with
    | none => pure { res := (res.status 404).json Body.frameworkDefault, handler := none }
    | some r => do
      let res1 ← r.handler cast res
      pure { res := res1, handler := some r }

/-! ## The seeding routine (server.js lines 29-72) -/

/-- The routine `seedDatabase` (line 29).  `new Author(...)` and `new Book(...)`
give each document its identity when it is constructed; `newId k` is the
identity of the `k`-th document constructed by the routine.  A rejected `await`
ends the routine at that point. -/
def seedDatabase (newId : Nat → ObjectId) : StoreM Unit := do
  Author.deleteMany
  Book.deleteMany
  let tolkien : Author := { _id := newId 0, name := "J.R.R. Tolkien" }
  Author.save tolkien
  let rowling : Author := { _id := newId 1, name := "J.K. Rowling" }
  Author.save rowling
  Book.save { _id := newId 2, title := "Harry Potter and the Philosopher's Stone",
              author := Path.value rowling._id }
  Book.save { _id := newId 3, title := "Harry Potter and the Chambers of Secrets",
              author := Path.value rowling._id }
  Book.save { _id := newId 4, title := "Harry Potter and the Prisoner of Azkaban",
              author := Path.value rowling._id }
  Book.save { _id := newId 5, title := "Harry Potter and the Goblet of Fire",
              author := Path.value rowling._id }
  Book.save { _id := newId 6, title := "Harry Potter and the Order of the Phoenix",
              author := Path.value rowling._id }
  Book.save { _id := newId 7, title := "Harry Potter and the Half-Blood Prince",
              author := Path.value rowling._id }
  Book.save { _id := newId 8, title := "Harry Potter and the Deathly Hollows",
              author := Path.value rowling._id }
  Book.save { _id := newId 9, title := "The Lord of the Rings",
              author := Path.value tolkien._id }
  Book.save { _id := newId 10, title := "The Hobbit", author := Path.value tolkien._id }

/-- The store a completed run of `seedDatabase` leaves: the two authors and the
nine books in insertion order, the identities being those of `newId`. -/
def seededStore (newId : Nat → ObjectId) : Store :=
  { authors := [⟨newId 0, "J.R.R. Tolkien"⟩, ⟨newId 1, "J.K. Rowling"⟩]
    books := [
      ⟨newId 2, "Harry Potter and the Philosopher's Stone", Path.value (newId 1)⟩,
      ⟨newId 3, "Harry Potter and the Chambers of Secrets", Path.value (newId 1)⟩,
      ⟨newId 4, "Harry Potter and the Prisoner of Azkaban", Path.value (newId 1)⟩,
      ⟨newId 5, "Harry Potter and the Goblet of Fire", Path.value (newId 1)⟩,
      ⟨newId 6, "Harry Potter and the Order of the Phoenix", Path.value (newId 1)⟩,
      ⟨newId 7, "Harry Potter and the Half-Blood Prince", Path.value (newId 1)⟩,
      ⟨newId 8, "Harry Potter and the Deathly Hollows", Path.value (newId 1)⟩,
      ⟨newId 9, "The Lord of the Rings", Path.value (newId 0)⟩,
      ⟨newId 10, "The Hobbit", Path.value (newId 0)⟩] }

/-! ## Concrete inputs used to instantiate the theorems -/

/-- A body parser that accepts the request as it is and calls `next()`. -/
def acceptingParser : Middleware := fun req res => { req := req, res := res, nexts := [none] }

/-- A cast defined on a few strings. -/
def sampleCast : IdCast := fun raw =>
  [("0", 0), ("1", 1), ("7", 7), ("9", 9), ("100", 100)].lookup raw

/-- A preflight request. -/
def preflightRequest : Request :=
  { method := "OPTIONS", path := ["authors"], headers := [], body := "" }

/-- A request for the author list. -/
def listRequest : Request :=
  { method := "GET", path := ["authors"], headers := [], body := "" }

/-- A store with one author, one of her books, a book with a dangling reference
and a book with no reference. -/
def sampleStore : Store :=
  { authors := [⟨7, "Tove Jansson"⟩]
    books := [⟨3, "Comet in Moominland", Path.value 7⟩, ⟨4, "Orphan", Path.value 9⟩,
      ⟨5, "Anonymous", Path.unset⟩] }

/-- Identities of a first run of the seeding routine. -/
def firstIds : Nat → ObjectId := fun k => k

/-- Identities of a second run of the seeding routine, all new. -/
def secondIds : Nat → ObjectId := fun k => k + 100

/-! ## Running store computations -/

theorem exec_pure {α : Type} (a : α) (s : Store) :
    (pure a : StoreM α).exec s = (Except.ok a, s) := rfl

theorem exec_bind {α β : Type} (m : StoreM α) (f : α → StoreM β) (s : Store) :
    (m >>= f).exec s =
      match m.exec s with
      | (Except.ok a, s1) => (f a).exec s1
      | (Except.error e, s1) => (Except.error e, s1) := by
  simp only [StoreM.exec, bind, ExceptT.bind, ExceptT.run, ExceptT.mk, StateT.bind, StateT.run,
    ExceptT.bindCont]
  rcases h : m s with ⟨r, s1⟩
  cases r <;> rfl

theorem exec_get (s : Store) : (get : StoreM Store).exec s = (Except.ok s, s) := rfl

theorem exec_set (t s : Store) : (set t : StoreM Unit).exec s = (Except.ok (), t) := rfl

theorem exec_modify (f : Store → Store) (s : Store) :
    (modify f : StoreM Unit).exec s = (Except.ok (), f s) := rfl

theorem exec_throw {α : Type} (e : StoreError) (s : Store) :
    (throw e : StoreM α).exec s = (Except.error e, s) := rfl

theorem exec_ite {α : Type} (c : Prop) [Decidable c] (m n : StoreM α) (s : Store) :
    (if c then m else n).exec s = if c then m.exec s else n.exec s := by
  split <;> rfl

/-- A bind that succeeds: its first part succeeded, and the rest ran from the
state the first part left. -/
theorem exec_bind_ok {α β : Type} {m : StoreM α} {f : α → StoreM β} {s s' : Store} {b : β}
    (h : (m >>= f).exec s = (Except.ok b, s')) :
    ∃ a s1, m.exec s = (Except.ok a, s1) ∧ (f a).exec s1 = (Except.ok b, s') := by
  rw [exec_bind] at h
  rcases hm : m.exec s with ⟨r, s1⟩
  rw [hm] at h
  cases r with
  | error e => simp at h
  | ok a => exact ⟨a, s1, rfl, h⟩

/-! ## The store operations -/

theorem exec_find (s : Store) : Author.find.exec s = (Except.ok s.authors, s) := rfl

theorem exec_findById (cast : IdCast) (raw : String) (s : Store) :
    (Author.findById cast raw).exec s =
      match cast raw with
      | none => (Except.error (StoreError.castError raw), s)
      | some oid => (Except.ok (s.authors.find? (fun a => a._id == oid)), s) := by
  unfold Author.findById
  cases cast raw <;> rfl

theorem exec_findByAuthor (oid : ObjectId) (s : Store) :
    (Book.findByAuthor oid).exec s =
      (Except.ok (s.books.filter (fun b => b.author == Path.value oid)), s) := rfl

theorem exec_findPopulated (s : Store) :
    Book.findPopulated.exec s = (Except.ok (s.books.map (populateAuthor s.authors)), s) := rfl

theorem exec_author_save (a : Author) (s : Store) :
    (Author.save a).exec s =
      if s.authors.any (fun x => x._id == a._id) then
        (Except.error (StoreError.duplicateKey a._id), s)
      else (Except.ok (), { s with authors := s.authors ++ [a] }) := by
  simp only [Author.save, exec_bind, exec_get, exec_ite, exec_throw, exec_set]

theorem exec_book_save (b : Book) (s : Store) :
    (Book.save b).exec s =
      if s.books.any (fun x => x._id == b._id) then
        (Except.error (StoreError.duplicateKey b._id), s)
      else (Except.ok (), { s with books := s.books ++ [b] }) := by
  simp only [Book.save, exec_bind, exec_get, exec_ite, exec_throw, exec_set]

theorem author_save_ok {a : Author} {s s' : Store}
    (h : (Author.save a).exec s = (Except.ok (), s')) :
    (∀ x ∈ s.authors, x._id ≠ a._id) ∧ s' = { s with authors := s.authors ++ [a] } := by
  rw [exec_author_save] at h
  split at h
  · simp at h
  · next hc =>
    simp only [Prod.mk.injEq, true_and] at h
    refine ⟨?_, h.symm⟩
    intro x hx hxa
    exact hc (List.any_eq_true.mpr ⟨x, hx, by simpa using hxa⟩)

theorem book_save_ok {b : Book} {s s' : Store}
    (h : (Book.save b).exec s = (Except.ok (), s')) :
    (∀ x ∈ s.books, x._id ≠ b._id) ∧ s' = { s with books := s.books ++ [b] } := by
  rw [exec_book_save] at h
  split at h
  · simp at h
  · next hc =>
    simp only [Prod.mk.injEq, true_and] at h
    refine ⟨?_, h.symm⟩
    intro x hx hxa
    exact hc (List.any_eq_true.mpr ⟨x, hx, by simpa using hxa⟩)

/-! ## The handlers, run -/

theorem exec_getRoot (res : Res) (s : Store) :
    (getRoot res).exec s = (Except.ok (res.send (Body.text "Hello Technigo!")), s) := rfl

theorem exec_getAuthors (res : Res) (s : Store) :
    (getAuthors res).exec s = (Except.ok (res.json (Body.authors s.authors)), s) := rfl

theorem exec_getBooks (res : Res) (s : Store) :
    (getBooks res).exec s =
      (Except.ok (res.json (Body.populatedBooks (s.books.map (populateAuthor s.authors)))), s) :=
  rfl

theorem exec_getAuthorById (cast : IdCast) (raw : String) (res : Res) (s : Store) :
    (getAuthorById cast raw res).exec s =
      match cast raw with
      | none => (Except.error (StoreError.castError raw), s)
      | some oid =>
        match s.authors.find? (fun a => a._id == oid) with
        | some a => (Except.ok (res.json (Body.author a)), s)
        | none => (Except.ok ((res.status 404).json (Body.error "Author not found")), s) := by
  simp only [getAuthorById, exec_bind, exec_findById]
  cases cast raw with
  | none => rfl
  | some oid =>
    dsimp only
    cases s.authors.find? (fun a => a._id == oid) <;> rfl

theorem exec_getAuthorBooks (cast : IdCast) (raw : String) (res : Res) (s : Store) :
    (getAuthorBooks cast raw res).exec s =
      match cast raw with
      | none => (Except.error (StoreError.castError raw), s)
      | some oid =>
        match s.authors.find? (fun a => a._id == oid) with
        | some a =>
          (Except.ok
            (res.json (Body.books (s.books.filter (fun b => b.author == Path.value a._id)))), s)
        | none => (Except.ok ((res.status 404).json (Body.error "Author not found")), s) := by
  simp only [getAuthorBooks, exec_bind, exec_findById]
  cases cast raw with
  | none => rfl
  | some oid =>
    dsimp only
    cases s.authors.find? (fun a => a._id == oid) <;> rfl

/-- No handler changes the store, whatever it answers and also when it rejects. -/
theorem handler_store (cast : IdCast) (r : Route) (res : Res) (s : Store) :
    ((r.handler cast res).exec s).2 = s := by
  cases r with
  | root => rfl
  | authors => rfl
  | books => rfl
  | authorById id =>
    simp only [Route.handler, exec_getAuthorById]
    cases cast id with
    | none => rfl
    | some oid =>
      dsimp only
      cases s.authors.find? (fun a => a._id == oid) <;> rfl
  | authorBooks id =>
    simp only [Route.handler, exec_getAuthorBooks]
    cases cast id with
    | none => rfl
    | some oid =>
      dsimp only
      cases s.authors.find? (fun a => a._id == oid) <;> rfl

/-- The whole application leaves the store as it found it. -/
theorem app_store (jsonParser : Middleware) (cast : IdCast) (readyState : Nat)
    (req : Request) (s : Store) :
    ((app jsonParser cast readyState req).exec s).2 = s := by
  unfold app
  cases runChain [cors, jsonParser, availabilityGate readyState] req Res.fresh with
  | ended res => rfl
  | failed err res => rfl
  | passed req1 res =>
    dsimp only
    cases matchRoute req1 with
    | none => rfl
    | some r =>
      simp only [exec_bind]
      have h := handler_store cast r res s
      rcases hx : (r.handler cast res).exec s with ⟨x, s1⟩
      rw [hx] at h
      cases x with
      | error e => exact h
      | ok res1 => exact h

/-- With the store connected, a request that is not a preflight, that the body
parser hands on untouched and that matches a route gets the answer of that
route's handler, started on a fresh response object. -/
theorem app_connected (jsonParser : Middleware) (cast : IdCast) (req : Request) (r : Route)
    (s : Store) (hm : req.method ≠ "OPTIONS")
    (hp : jsonParser req Res.fresh = { req := req, res := Res.fresh, nexts := [none] })
    (hr : matchRoute req = some r) :
    (app jsonParser cast 1 req).exec s =
      match (r.handler cast Res.fresh).exec s with
      | (Except.ok res, s1) => (Except.ok { res := res, handler := some r }, s1)
      | (Except.error e, s1) => (Except.error e, s1) := by
  simp only [app, runChain, cors, hm, if_false, hp, availabilityGate, if_true, hr, exec_bind]
  rcases (r.handler cast Res.fresh).exec s with ⟨x, s1⟩
  cases x <;> rfl

/-! ## The seeding routine, run -/

/-- A run of `seedDatabase` that completes met two different author identities
and leaves exactly `seededStore`, whatever the store held before. -/
theorem seed_ok {newId : Nat → ObjectId} {s s' : Store}
    (h : (seedDatabase newId).exec s = (Except.ok (), s')) :
    newId 0 ≠ newId 1 ∧ s' = seededStore newId := by
  unfold seedDatabase at h
  obtain ⟨_, s1, h1, h⟩ := exec_bind_ok h
  obtain ⟨_, s2, h2, h⟩ := exec_bind_ok h
  obtain ⟨_, s3, h3, h⟩ := exec_bind_ok h
  obtain ⟨_, s4, h4, h⟩ := exec_bind_ok h
  obtain ⟨_, s5, h5, h⟩ := exec_bind_ok h
  obtain ⟨_, s6, h6, h⟩ := exec_bind_ok h
  obtain ⟨_, s7, h7, h⟩ := exec_bind_ok h
  obtain ⟨_, s8, h8, h⟩ := exec_bind_ok h
  obtain ⟨_, s9, h9, h⟩ := exec_bind_ok h
  obtain ⟨_, s10, h10, h⟩ := exec_bind_ok h
  obtain ⟨_, s11, h11, h⟩ := exec_bind_ok h
  obtain ⟨_, s12, h12, h⟩ := exec_bind_ok h
  simp only [Author.deleteMany, Book.deleteMany, exec_modify, Prod.mk.injEq, true_and] at h1 h2
  subst h1
  subst h2
  obtain ⟨-, rfl⟩ := author_save_ok h3
  obtain ⟨hr, rfl⟩ := author_save_ok h4
  obtain ⟨-, rfl⟩ := book_save_ok h5
  obtain ⟨-, rfl⟩ := book_save_ok h6
  obtain ⟨-, rfl⟩ := book_save_ok h7
  obtain ⟨-, rfl⟩ := book_save_ok h8
  obtain ⟨-, rfl⟩ := book_save_ok h9
  obtain ⟨-, rfl⟩ := book_save_ok h10
  obtain ⟨-, rfl⟩ := book_save_ok h11
  obtain ⟨-, rfl⟩ := book_save_ok h12
  obtain ⟨-, rfl⟩ := book_save_ok h
  refine ⟨?_, rfl⟩
  simpa using hr

/-- The routine does complete: when the eleven identities it hands out are
pairwise different, every insert succeeds, from every initial store. -/
theorem seed_completes (newId : Nat → ObjectId) (s : Store)
    (hne : ∀ i j, i ≤ 10 → j ≤ 10 → i ≠ j → newId i ≠ newId j) :
    (seedDatabase newId).exec s = (Except.ok (), seededStore newId) := by
  have h01 := hne 0 1 (by omega) (by omega) (by omega)
  simp only [seedDatabase, exec_bind, Author.deleteMany, Book.deleteMany, exec_modify,
    exec_author_save, exec_book_save]
  simp [h01, seededStore,
    hne 2 3, hne 2 4, hne 2 5, hne 2 6, hne 2 7, hne 2 8, hne 2 9, hne 2 10,
    hne 3 4, hne 3 5, hne 3 6, hne 3 7, hne 3 8, hne 3 9, hne 3 10,
    hne 4 5, hne 4 6, hne 4 7, hne 4 8, hne 4 9, hne 4 10,
    hne 5 6, hne 5 7, hne 5 8, hne 5 9, hne 5 10,
    hne 6 7, hne 6 8, hne 6 9, hne 6 10,
    hne 7 8, hne 7 9, hne 7 10, hne 8 9, hne 8 10, hne 9 10]

/-! ## The availability gate and the middleware chain -/

/-- C2: the gate calls `next` if and only if `readyState` is 1.  When it is 1 the
gate calls `next()` exactly once and leaves the request and the response as
they were; for every other value it sets status 503 with the payload
`{ error: "Service unavailable" }`, leaves the request alone and does not call
`next`. -/
theorem availabilityGate_next_iff_connected (readyState : Nat) (req : Request) (res : Res) :
    ((availabilityGate readyState req res).nexts ≠ [] ↔ readyState = 1) ∧
    (readyState = 1 →
      availabilityGate readyState req res = { req := req, res := res, nexts := [none] }) ∧
    (readyState ≠ 1 →
      availabilityGate readyState req res =
        { req := req
          res := { statusCode := 503, body := some (Body.error "Service unavailable") }
          nexts := [] }) := by
  refine ⟨?_, ?_, ?_⟩
  · by_cases h : readyState = 1 <;> simp [availabilityGate, h]
  · intro h
    simp [availabilityGate, h]
  · intro h
    simp [availabilityGate, h, Res.status, Res.json]

/-- C2 at a connected and at a connecting (state 2) store. -/
theorem availabilityGate_next_iff_connected_witness :
    (1 : Nat) = 1 ∧ (2 : Nat) ≠ 1 ∧
    availabilityGate 1 listRequest Res.fresh =
      { req := listRequest, res := Res.fresh, nexts := [none] } ∧
    availabilityGate 2 listRequest Res.fresh =
      { req := listRequest
        res := { statusCode := 503, body := some (Body.error "Service unavailable") }
        nexts := [] } :=
  ⟨rfl, by decide,
    (availabilityGate_next_iff_connected 1 listRequest Res.fresh).2.1 rfl,
    (availabilityGate_next_iff_connected 2 listRequest Res.fresh).2.2 (by decide)⟩

/-- C1, at a request on which the program departs from it: a preflight (OPTIONS)
request sent while the store is disconnected (`readyState` 0) is answered 204
with an empty payload by `cors`, the first middleware of the chain; the gate,
which the comment at line 86 places around every single request, is never
reached, and the answer is not the 503 one. -/
theorem preflight_not_gated :
    (app acceptingParser sampleCast 0 preflightRequest).exec sampleStore =
      (Except.ok { res := { statusCode := 204, body := some Body.empty }, handler := none },
        sampleStore) ∧
    (app acceptingParser sampleCast 0 preflightRequest).exec sampleStore ≠
      (Except.ok
        { res := { statusCode := 503, body := some (Body.error "Service unavailable") }
          handler := none },
        sampleStore) := by
  have h : (app acceptingParser sampleCast 0 preflightRequest).exec sampleStore =
      (Except.ok { res := { statusCode := 204, body := some Body.empty }, handler := none },
        sampleStore) := rfl
  refine ⟨h, ?_⟩
  rw [h]
  intro hc
  simp at hc

/-- Where the gate does apply: while `readyState` is not 1, every request that
reaches the gate, that is, every request whose method is not OPTIONS and that
the JSON body parser hands on with `next()`, gets status 503 and the payload
`{ error: "Service unavailable" }` from `res.json`; no route handler runs and
the store is untouched, whatever the route, the request payload and the
store. -/
theorem app_unavailable (jsonParser : Middleware) (cast : IdCast) (readyState : Nat)
    (req : Request) (s : Store)
    (hstate : readyState ≠ 1)
    (hmethod : req.method ≠ "OPTIONS")
    (hparsed : (jsonParser req Res.fresh).nexts.head? = some none) :
    (app jsonParser cast readyState req).exec s =
      (Except.ok
        { res := { statusCode := 503, body := some (Body.error "Service unavailable") }
          handler := none },
        s) := by
  rcases hn : (jsonParser req Res.fresh).nexts with _ | ⟨x, rest⟩
  · rw [hn] at hparsed
    simp at hparsed
  · rw [hn] at hparsed
    simp only [List.head?_cons, Option.some.injEq] at hparsed
    subst hparsed
    simp only [app, runChain, cors, hmethod, if_false, hn, availabilityGate, hstate]
    rfl

/-! ## Lookups in the author collection -/

/-- No stored Author has the identity: the lookup yields null. -/
theorem find_absent {authors : List Author} {oid : ObjectId}
    (h : oid ∉ authors.map Author._id) :
    authors.find? (fun a => a._id == oid) = none := by
  rw [List.find?_eq_none]
  intro a ha hp
  exact h (List.mem_map.mpr ⟨a, ha, by simpa using hp⟩)

/-- Some stored Author has the identity: the lookup yields a stored Author with
that identity. -/
theorem find_present {authors : List Author} {oid : ObjectId}
    (h : oid ∈ authors.map Author._id) :
    ∃ a, a ∈ authors ∧ a._id = oid ∧ authors.find? (fun a => a._id == oid) = some a := by
  cases hf : authors.find? (fun a => a._id == oid) with
  | none =>
    rw [List.find?_eq_none] at hf
    obtain ⟨a, ha, rfl⟩ := List.mem_map.mp h
    exact absurd (by simp) (hf a ha)
  | some a =>
    exact ⟨a, List.mem_of_find?_eq_some hf, by simpa using List.find?_some hf, rfl⟩

/-! ## The route handlers -/

/-- C3: for every store and every string the driver casts to an identity `oid`:
when no stored Author has identity `oid`, `GET /authors/:id` and
`GET /authors/:id/books` both answer 404 with `{ error: "Author not found" }`,
whatever the Book collection holds; when a stored Author has identity `oid`,
`GET /authors/:id` answers 200 with a stored Author record of that identity,
which is the only such record when identities are unique in the collection. -/
theorem author_lookup_status (cast : IdCast) (raw : String) (oid : ObjectId) (s : Store)
    (hcast : cast raw = some oid) :
    (oid ∉ s.authors.map Author._id →
      (getAuthorById cast raw Res.fresh).exec s =
        (Except.ok { statusCode := 404, body := some (Body.error "Author not found") }, s) ∧
      (getAuthorBooks cast raw Res.fresh).exec s =
        (Except.ok { statusCode := 404, body := some (Body.error "Author not found") }, s)) ∧
    (oid ∈ s.authors.map Author._id →
      ∃ a, a ∈ s.authors ∧ a._id = oid ∧
        (getAuthorById cast raw Res.fresh).exec s =
          (Except.ok { statusCode := 200, body := some (Body.author a) }, s) ∧
        ((s.authors.map Author._id).Nodup → ∀ b ∈ s.authors, b._id = oid → b = a)) := by
  constructor
  · intro h
    rw [exec_getAuthorById, exec_getAuthorBooks, hcast]
    simp only [find_absent h]
    exact ⟨rfl, rfl⟩
  · intro h
    obtain ⟨a, ha, hid, hf⟩ := find_present h
    refine ⟨a, ha, hid, ?_, ?_⟩
    · rw [exec_getAuthorById, hcast]
      simp only [hf]
      rfl
    · intro hnd b hb hbid
      exact List.inj_on_of_nodup_map hnd hb ha (hbid.trans hid.symm)

/-- C3 on the sample store: identity 9 is referenced by a book but belongs to no
author, identity 7 is the stored author's. -/
theorem author_lookup_status_witness :
    sampleCast "9" = some 9 ∧ 9 ∉ sampleStore.authors.map Author._id ∧
    sampleCast "7" = some 7 ∧ 7 ∈ sampleStore.authors.map Author._id ∧
    ((getAuthorById sampleCast "9" Res.fresh).exec sampleStore =
        (Except.ok { statusCode := 404, body := some (Body.error "Author not found") },
          sampleStore) ∧
      (getAuthorBooks sampleCast "9" Res.fresh).exec sampleStore =
        (Except.ok { statusCode := 404, body := some (Body.error "Author not found") },
          sampleStore)) ∧
    (∃ a, a ∈ sampleStore.authors ∧ a._id = 7 ∧
      (getAuthorById sampleCast "7" Res.fresh).exec sampleStore =
        (Except.ok { statusCode := 200, body := some (Body.author a) }, sampleStore) ∧
      ((sampleStore.authors.map Author._id).Nodup →
        ∀ b ∈ sampleStore.authors, b._id = 7 → b = a)) :=
  ⟨rfl, by decide, rfl, by decide,
    (author_lookup_status sampleCast "9" 9 sampleStore rfl).1 (by decide),
    (author_lookup_status sampleCast "7" 7 sampleStore rfl).2 (by decide)⟩

/-- C4: for every store and every string the driver casts to the identity `oid`
of a stored Author, `GET /authors/:id/books` answers 200 with a list `bs` of
Book records (their `author` path being the stored identity) that is the Book
collection restricted to the records whose `author` is `oid`: a record is in
`bs` exactly when it is stored and references `oid`, as often and in the same
order; `bs` is empty when no Book references `oid`. -/
theorem author_books_exact (cast : IdCast) (raw : String) (oid : ObjectId) (s : Store)
    (hcast : cast raw = some oid) (hmem : oid ∈ s.authors.map Author._id) :
    ∃ bs : List Book,
      (getAuthorBooks cast raw Res.fresh).exec s =
        (Except.ok { statusCode := 200, body := some (Body.books bs) }, s) ∧
      (∀ b, b ∈ bs ↔ b ∈ s.books ∧ b.author = Path.value oid) ∧
      bs.Sublist s.books ∧
      (∀ b, b.author = Path.value oid → bs.count b = s.books.count b) ∧
      ((∀ b ∈ s.books, b.author ≠ Path.value oid) → bs = []) := by
  obtain ⟨a, _, hid, hf⟩ := find_present hmem
  refine ⟨s.books.filter (fun b => b.author == Path.value oid), ?_, ?_, ?_, ?_, ?_⟩
  · rw [exec_getAuthorBooks, hcast]
    simp only [hf, hid]
    rfl
  · intro b
    simp [List.mem_filter]
  · exact List.filter_sublist _
  · intro b hb
    rw [List.count_filter]
    simp [hb]
  · intro h
    rw [List.filter_eq_nil_iff]
    intro b hb
    simpa using h b hb

/-- C4 on the sample store, for the stored author 7. -/
theorem author_books_exact_witness :
    sampleCast "7" = some 7 ∧ 7 ∈ sampleStore.authors.map Author._id ∧
    (∃ bs : List Book,
      (getAuthorBooks sampleCast "7" Res.fresh).exec sampleStore =
        (Except.ok { statusCode := 200, body := some (Body.books bs) }, sampleStore) ∧
      (∀ b, b ∈ bs ↔ b ∈ sampleStore.books ∧ b.author = Path.value 7) ∧
      bs.Sublist sampleStore.books ∧
      (∀ b, b.author = Path.value 7 → bs.count b = sampleStore.books.count b) ∧
      ((∀ b ∈ sampleStore.books, b.author ≠ Path.value 7) → bs = [])) :=
  ⟨rfl, by decide, author_books_exact sampleCast "7" 7 sampleStore rfl (by decide)⟩

/-- C5, as stated, fails on a Book whose `author` path is unset: `GET /books` on
the sample store gives the entry of "Anonymous" no `author` member at all, not
a null one (the entry of "Orphan", whose reference is dangling, does get
null). -/
theorem unset_author_not_null :
    (getBooks Res.fresh).exec sampleStore =
      (Except.ok
        { statusCode := 200
          body := some (Body.populatedBooks
            [⟨3, "Comet in Moominland", Path.value ⟨7, "Tove Jansson"⟩⟩,
             ⟨4, "Orphan", Path.null⟩,
             ⟨5, "Anonymous", Path.unset⟩]) },
        sampleStore) ∧
    (⟨5, "Anonymous", Path.unset⟩ : Book) ∈ sampleStore.books ∧
    (populateAuthor sampleStore.authors ⟨5, "Anonymous", Path.unset⟩).author ≠ Path.null := by
  refine ⟨rfl, by decide, by decide⟩

/-- C5, amended: for every store, `GET /books` answers 200 with a list that
matches the Book collection entry by entry: same identity and title; when a
stored Author has the identity the book refers to, the entry's `author` is a
stored Author record with that identity; when the book refers to an identity
no stored Author has, or its `author` is a stored null, the entry's `author` is
null; when the book's `author` is unset, the entry has no `author` member. -/
theorem books_populated (s : Store) :
    ∃ pbs : List PopulatedBook,
      (getBooks Res.fresh).exec s =
        (Except.ok { statusCode := 200, body := some (Body.populatedBooks pbs) }, s) ∧
      List.Forall₂
        (fun (b : Book) (p : PopulatedBook) =>
          p._id = b._id ∧ p.title = b.title ∧
          (∀ oid, b.author = Path.value oid → oid ∈ s.authors.map Author._id →
            ∃ a, a ∈ s.authors ∧ a._id = oid ∧ p.author = Path.value a) ∧
          (∀ oid, b.author = Path.value oid → oid ∉ s.authors.map Author._id →
            p.author = Path.null) ∧
          (b.author = Path.null → p.author = Path.null) ∧
          (b.author = Path.unset → p.author = Path.unset))
        s.books pbs := by
  refine ⟨s.books.map (populateAuthor s.authors), rfl, ?_⟩
  rw [List.forall₂_map_right_iff, List.forall₂_same]
  intro b _
  refine ⟨rfl, rfl, ?_, ?_, ?_, ?_⟩
  · intro oid hb hmem
    obtain ⟨a, ha, hid, hf⟩ := find_present hmem
    exact ⟨a, ha, hid, by simp [populateAuthor, hb, hf]⟩
  · intro oid hb hmem
    simp [populateAuthor, hb, find_absent hmem]
  · intro hb
    simp [populateAuthor, hb]
  · intro hb
    simp [populateAuthor, hb]

/-- C10: every route handler, on every store, request parameter and response
object, leaves the store exactly as it was, whether it answers 200 or 404 or
rejects; and so does the whole application on every request, in every
connection state. -/
theorem handlers_read_only (jsonParser : Middleware) (cast : IdCast) (readyState : Nat)
    (req : Request) (r : Route) (res : Res) (s : Store) :
    ((r.handler cast res).exec s).2 = s ∧
    ((app jsonParser cast readyState req).exec s).2 = s :=
  ⟨handler_store cast r res s, app_store jsonParser cast readyState req s⟩

/-! ## After seeding -/

/-- C6: from every initial store, when `seedDatabase` completes, `GET /books`
answers 200 with exactly 9 entries, each with a non-null `author` record named
"J.R.R. Tolkien" or "J.K. Rowling"; 7 entries have the author named
"J.K. Rowling" and 2 the author named "J.R.R. Tolkien". -/
theorem seeded_books (newId : Nat → ObjectId) (s s' : Store)
    (h : (seedDatabase newId).exec s = (Except.ok (), s')) :
    ∃ pbs : List PopulatedBook,
      (getBooks Res.fresh).exec s' =
        (Except.ok { statusCode := 200, body := some (Body.populatedBooks pbs) }, s') ∧
      pbs.length = 9 ∧
      (∀ p ∈ pbs, ∃ a, p.author = Path.value a ∧
        (a.name = "J.R.R. Tolkien" ∨ a.name = "J.K. Rowling")) ∧
      pbs.countP (fun p => p.author.map Author.name == Path.value "J.K. Rowling") = 7 ∧
      pbs.countP (fun p => p.author.map Author.name == Path.value "J.R.R. Tolkien") = 2 := by
  obtain ⟨hne, rfl⟩ := seed_ok h
  refine ⟨(seededStore newId).books.map (populateAuthor (seededStore newId).authors),
    rfl, ?_, ?_, ?_, ?_⟩
  · simp [seededStore]
  · simp [seededStore, populateAuthor, hne]
  · simp [seededStore, populateAuthor, hne, List.countP_cons, Path.map]
  · simp [seededStore, populateAuthor, hne, List.countP_cons, Path.map]

/-- C6 for a seeding of the sample store. -/
theorem seeded_books_witness :
    (seedDatabase firstIds).exec sampleStore = (Except.ok (), seededStore firstIds) ∧
    (∃ pbs : List PopulatedBook,
      (getBooks Res.fresh).exec (seededStore firstIds) =
        (Except.ok { statusCode := 200, body := some (Body.populatedBooks pbs) },
          seededStore firstIds) ∧
      pbs.length = 9 ∧
      (∀ p ∈ pbs, ∃ a, p.author = Path.value a ∧
        (a.name = "J.R.R. Tolkien" ∨ a.name = "J.K. Rowling")) ∧
      pbs.countP (fun p => p.author.map Author.name == Path.value "J.K. Rowling") = 7 ∧
      pbs.countP (fun p => p.author.map Author.name == Path.value "J.R.R. Tolkien") = 2) :=
  ⟨rfl, seeded_books firstIds sampleStore (seededStore firstIds) rfl⟩

/-- C7: from every initial store, when `seedDatabase` completes, `GET /authors`
answers 200 with exactly 2 records, named "J.R.R. Tolkien" and "J.K. Rowling";
they are the two records the routine inserted, so no Author record of the
initial store is left. -/
theorem seeded_authors (newId : Nat → ObjectId) (s s' : Store)
    (h : (seedDatabase newId).exec s = (Except.ok (), s')) :
    ∃ l : List Author,
      (getAuthors Res.fresh).exec s' =
        (Except.ok { statusCode := 200, body := some (Body.authors l) }, s') ∧
      l.length = 2 ∧
      l.map Author.name = ["J.R.R. Tolkien", "J.K. Rowling"] ∧
      l = [{ _id := newId 0, name := "J.R.R. Tolkien" },
           { _id := newId 1, name := "J.K. Rowling" }] := by
  obtain ⟨_, rfl⟩ := seed_ok h
  exact ⟨(seededStore newId).authors, rfl, rfl, rfl, rfl⟩

/-- C7 for a seeding of the sample store. -/
theorem seeded_authors_witness :
    (seedDatabase firstIds).exec sampleStore = (Except.ok (), seededStore firstIds) ∧
    (∃ l : List Author,
      (getAuthors Res.fresh).exec (seededStore firstIds) =
        (Except.ok { statusCode := 200, body := some (Body.authors l) },
          seededStore firstIds) ∧
      l.length = 2 ∧
      l.map Author.name = ["J.R.R. Tolkien", "J.K. Rowling"] ∧
      l = [{ _id := firstIds 0, name := "J.R.R. Tolkien" },
           { _id := firstIds 1, name := "J.K. Rowling" }]) :=
  ⟨rfl, seeded_authors firstIds sampleStore (seededStore firstIds) rfl⟩

/-- C8: from every initial store, when `seedDatabase` completes, for the stored
Author named "J.R.R. Tolkien" and every string the driver casts to his
identity, `GET /authors/:id/books` answers 200 with exactly 2 Book records,
titled "The Lord of the Rings" and "The Hobbit", the `author` path of each
being that identity itself. -/
theorem seeded_tolkien_books (newId : Nat → ObjectId) (cast : IdCast) (raw : String)
    (s s' : Store) (tolkien : Author)
    (h : (seedDatabase newId).exec s = (Except.ok (), s'))
    (hmem : tolkien ∈ s'.authors) (hname : tolkien.name = "J.R.R. Tolkien")
    (hcast : cast raw = some tolkien._id) :
    ∃ b1 b2 : Book,
      (getAuthorBooks cast raw Res.fresh).exec s' =
        (Except.ok { statusCode := 200, body := some (Body.books [b1, b2]) }, s') ∧
      b1.title = "The Lord of the Rings" ∧ b2.title = "The Hobbit" ∧
      b1.author = Path.value tolkien._id ∧ b2.author = Path.value tolkien._id := by
  obtain ⟨hne, rfl⟩ := seed_ok h
  have ht : tolkien = { _id := newId 0, name := "J.R.R. Tolkien" } := by
    simp only [seededStore, List.mem_cons, List.mem_singleton, List.not_mem_nil, or_false] at hmem
    rcases hmem with rfl | rfl
    · rfl
    · simp at hname
  subst ht
  refine ⟨⟨newId 9, "The Lord of the Rings", Path.value (newId 0)⟩,
    ⟨newId 10, "The Hobbit", Path.value (newId 0)⟩, ?_, rfl, rfl, rfl, rfl⟩
  rw [exec_getAuthorBooks, hcast]
  simp [seededStore, hne, Ne.symm hne, List.filter_cons, Res.fresh, Res.json]

/-- C8 for a seeding of the sample store, asking with the string "0". -/
theorem seeded_tolkien_books_witness :
    (seedDatabase firstIds).exec sampleStore = (Except.ok (), seededStore firstIds) ∧
    sampleCast "0" = some 0 ∧
    (∃ b1 b2 : Book,
      (getAuthorBooks sampleCast "0" Res.fresh).exec (seededStore firstIds) =
        (Except.ok { statusCode := 200, body := some (Body.books [b1, b2]) },
          seededStore firstIds) ∧
      b1.title = "The Lord of the Rings" ∧ b2.title = "The Hobbit" ∧
      b1.author = Path.value 0 ∧ b2.author = Path.value 0) :=
  ⟨rfl, rfl,
    seeded_tolkien_books firstIds sampleCast "0" sampleStore (seededStore firstIds)
      { _id := 0, name := "J.R.R. Tolkien" } rfl (by decide) rfl rfl⟩

/-! ## Seeding twice -/

/-- C9: from every initial store, when `seedDatabase` completes twice in
sequence and the author identities of the second run are new (they differ from
every Author identity the first run left), the store after the second run has
the content of the store after the first, up to identities: 2 authors with the
same names, 9 books, and `GET /books` gives the same titles with the same
author names in the same order; and every Author identity of the first run is
gone, so `GET /authors/:id` answers 404 for it. -/
theorem reseed_same_content (g1 g2 : Nat → ObjectId) (s s1 s2 : Store)
    (h1 : (seedDatabase g1).exec s = (Except.ok (), s1))
    (h2 : (seedDatabase g2).exec s1 = (Except.ok (), s2))
    (hfresh : ∀ k, k ≤ 1 → ∀ a ∈ s1.authors, g2 k ≠ a._id) :
    s2.authors.length = 2 ∧ s2.books.length = 9 ∧
    s2.authors.map Author.name = s1.authors.map Author.name ∧
    (s2.books.map (populateAuthor s2.authors)).map
        (fun p => (p.title, p.author.map Author.name)) =
      (s1.books.map (populateAuthor s1.authors)).map
        (fun p => (p.title, p.author.map Author.name)) ∧
    (∀ a ∈ s1.authors, a._id ∉ s2.authors.map Author._id ∧
      ∀ (cast : IdCast) (raw : String), cast raw = some a._id →
        (getAuthorById cast raw Res.fresh).exec s2 =
          (Except.ok { statusCode := 404, body := some (Body.error "Author not found") },
            s2)) := by
  obtain ⟨hne1, rfl⟩ := seed_ok h1
  obtain ⟨hne2, rfl⟩ := seed_ok h2
  refine ⟨rfl, rfl, rfl, ?_, ?_⟩
  · simp [seededStore, populateAuthor, hne1, hne2, Path.map]
  · intro a ha
    have habs : a._id ∉ (seededStore g2).authors.map Author._id := by
      have f0 := hfresh 0 (by omega) a ha
      have f1 := hfresh 1 (by omega) a ha
      simp only [seededStore, List.map_cons, List.map_nil, List.mem_cons, List.mem_singleton,
        List.not_mem_nil, or_false, not_or]
      exact ⟨fun e => f0 e.symm, fun e => f1 e.symm⟩
    refine ⟨habs, ?_⟩
    intro cast raw hcast
    rw [exec_getAuthorById, hcast]
    simp only [find_absent habs]
    rfl

/-- C9 for two seedings of the sample store, the second with identities from
100 on; the first run gave Tolkien identity 0. -/
theorem reseed_same_content_witness :
    (seedDatabase firstIds).exec sampleStore = (Except.ok (), seededStore firstIds) ∧
    (seedDatabase secondIds).exec (seededStore firstIds) =
      (Except.ok (), seededStore secondIds) ∧
    (seededStore secondIds).authors.map Author.name =
      (seededStore firstIds).authors.map Author.name ∧
    (getAuthorById sampleCast "0" Res.fresh).exec (seededStore secondIds) =
      (Except.ok { statusCode := 404, body := some (Body.error "Author not found") },
        seededStore secondIds) :=
  have h := reseed_same_content firstIds secondIds sampleStore (seededStore firstIds)
    (seededStore secondIds) rfl rfl (by decide)
  ⟨rfl, rfl, h.2.2.1,
    (h.2.2.2.2 { _id := 0, name := "J.R.R. Tolkien" } (by decide)).2 sampleCast "0" rfl⟩

end MongoCodealong
